import Mathlib

/-!
Verification of the SQS email-sender lambda
(`src/lambda/sqs-email-sender/lambda_function.py`, `utils/otp.py`, `utils/db.py`).

Shallow embedding conventions:
* External collaborators (psycopg2 connection/cursor, the `users` SELECT, the
  `otp_codes` INSERT, `commit`, SES `send_email`) are modelled by per-message
  outcome fields in `MsgInput`; their success/failure is an input of the model.
* `json.loads(record["body"])` is a collaborator too; a message carries its
  parse result (`ParsedBody`). Crucially, in the source this call happens
  OUTSIDE the `try` block, so a parse failure is an uncaught exception.
* The random generator behind `random.choices`, the uuid, and the two
  `datetime.utcnow()` reads of `create_otp_record` are explicit inputs:
  `rand` is the stream of draws, `t1` the first clock read (used for
  `expires_at`), `t2` the second (used for `created_at`), in source order.
* Timestamps are naturals counting seconds; `timedelta(minutes=10)` is 600 s.
* The store holds the committed rows of `otp_codes`: a row is visible only
  after `INSERT` and `conn.commit()` both succeeded (a failed commit followed
  by `conn.close()` discards the transaction).
* `print` logging is modelled by the `skips` (user-not-found log) and
  `errors` (the `except` handler's log) lists of `BatchState`.
-/

namespace SqsEmailSender

/-- `string.digits` from the Python standard library. -/
def stringDigits : String := "0123456789"

/-- `generate_otp(length=6)`: `''.join(random.choices(string.digits, k=length))`.
The i-th draw of `random.choices` is modelled by `rand.getD i 0 % 10`,
an index into `string.digits`. -/
def generate_otp (rand : List Nat) (length : Nat := 6) : String :=
  String.mk ((List.range length).map (fun i => stringDigits.toList.getD ((rand.getD i 0) % 10) '0'))

/-- `timedelta(minutes=10)` in seconds. -/
def TEN_MINUTES : Nat := 600

/-- The dict returned by `create_otp_record`. -/
structure OtpRecord where
  id : String
  user_id : Nat
  code : String
  type : String
  expires_at : Nat
  created_at : Nat
deriving Repr, DecidableEq

/-- `create_otp_record(user_id, otp_type="email_verification")`:
`code = generate_otp()`, `otp_id = str(uuid.uuid4())`,
`expires_at = datetime.utcnow() + timedelta(minutes=10)` (first clock read `t1`),
`created_at = datetime.utcnow()` (second clock read `t2`). -/
def create_otp_record (uuid : String) (rand : List Nat) (t1 t2 : Nat)
    (user_id : Nat) (otp_type : String := "email_verification") : OtpRecord :=
  { id := uuid
    user_id := user_id
    code := generate_otp rand
    type := otp_type
    expires_at := t1 + TEN_MINUTES
    created_at := t2 }

/-- Result of `json.loads(record["body"])` followed by the two `.get` calls.
`parseError` covers any exception raised by `json.loads` (malformed JSON);
in the source this happens before the `try`, so it is uncaught.
`obj email ty` is a parsed JSON object: `email = body.get("email")`
(`none` when the key is absent), `ty = body.get("type")` before the
`"email_verification"` default is applied. -/
inductive ParsedBody where
  | parseError
  | obj (email : Option String) (ty : Option String)
deriving Repr, DecidableEq

/-- Outcome of `cursor.execute("SELECT id FROM users WHERE email = %s")` +
`fetchone()`: the query may raise, return no row, or return a row `(id,)`. -/
inductive LookupResult where
  | queryError
  | notFound
  | found (id : Nat)
deriving Repr, DecidableEq

/-- One SQS record together with the behaviour of every collaborator call
made while processing it. -/
structure MsgInput where
  parsed : ParsedBody
  connectOk : Bool    -- get_connection() succeeds
  cursorOk : Bool     -- conn.cursor() succeeds
  lookup : LookupResult
  insertOk : Bool     -- cursor.execute(INSERT ...) succeeds
  commitOk : Bool     -- conn.commit() succeeds
  sendOk : Bool       -- ses.send_email succeeds
  uuid : String
  rand : List Nat
  t1 : Nat
  t2 : Nat
deriving Repr, DecidableEq

/-- How one loop iteration ended (for iterations that did not raise). -/
inductive MsgOutcome where
  | success
  | skipped
  | failed
deriving Repr, DecidableEq

/-- Observable batch state: committed `otp_codes` rows, sent emails
(destination, body text), user-not-found log lines, `except`-handler log
lines, SELECT queries executed (argument of the `WHERE email = %s`), and
the outcome of every completed iteration. -/
structure BatchState where
  store : List OtpRecord
  notifications : List (Option String × String)
  skips : List (Option String)
  errors : List (Option String)
  queries : List (Option String)
  outcomes : List MsgOutcome
deriving Repr, DecidableEq

def initState : BatchState := ⟨[], [], [], [], [], []⟩

/-- The f-string `f"Your OTP is {otp_record['code']}. It will expire in 10 minutes."`. -/
def email_body_text (code : String) : String :=
  "Your OTP is " ++ code ++ ". It will expire in 10 minutes."

/-- The `email` local of an iteration (`body.get("email")`). -/
def msgEmail (m : MsgInput) : Option String :=
  match m.parsed with
  | .parseError => none
  | .obj e _ => e

/-- The `otp_type` local of an iteration (`body.get("type", "email_verification")`). -/
def msgOtpType (m : MsgInput) : String :=
  match m.parsed with
  | .parseError => "email_verification"
  | .obj _ t => t.getD "email_verification"

/-- One iteration of the `for record in event["Records"]` loop.
Returns the updated state and `true` when the loop continues to the next
record, `false` when an uncaught exception aborts the batch.
Branches, in source order:
* `json.loads` raises → uncaught (outside `try`), batch aborts;
* `get_connection()` / `conn.cursor()` raise → caught by `except`, error logged;
* SELECT raises → caught, error logged; returns no row → log + `continue`;
* row found → `create_otp_record`, INSERT, `commit` (failure of either is
  caught; the row is persisted only if both succeed), then `send_email`
  (failure caught, but the committed row stays). -/
def processMessage (s : BatchState) (m : MsgInput) : BatchState × Bool :=
  match m.parsed with
  | .parseError => (s, false)
  | .obj emailOpt tyOpt =>
    let email := emailOpt
    let otp_type := tyOpt.getD "email_verification"
    if m.connectOk = false then
      ({ s with errors := s.errors ++ [email], outcomes := s.outcomes ++ [.failed] }, true)
    else if m.cursorOk = false then
      ({ s with errors := s.errors ++ [email], outcomes := s.outcomes ++ [.failed] }, true)
    else
      let s1 := { s with queries := s.queries ++ [email] }
      match m.lookup with
      | .queryError =>
        ({ s1 with errors := s1.errors ++ [email], outcomes := s1.outcomes ++ [.failed] }, true)
      | .notFound =>
        ({ s1 with skips := s1.skips ++ [email], outcomes := s1.outcomes ++ [.skipped] }, true)
      | .found user_id =>
        let r := create_otp_record m.uuid m.rand m.t1 m.t2 user_id otp_type
        if m.insertOk = false then
          ({ s1 with errors := s1.errors ++ [email], outcomes := s1.outcomes ++ [.failed] }, true)
        else if m.commitOk = false then
          ({ s1 with errors := s1.errors ++ [email], outcomes := s1.outcomes ++ [.failed] }, true)
        else
          let s2 := { s1 with store := s1.store ++ [r] }
          if m.sendOk = false then
            ({ s2 with errors := s2.errors ++ [email], outcomes := s2.outcomes ++ [.failed] }, true)
          else
            ({ s2 with notifications := s2.notifications ++ [(email, email_body_text r.code)],
                       outcomes := s2.outcomes ++ [.success] }, true)

/-- The record loop. `true` = loop finished, `false` = an exception escaped. -/
def runBatch (s : BatchState) : List MsgInput → BatchState × Bool
  | [] => (s, true)
  | m :: ms =>
    let p := processMessage s m
    if p.2 then runBatch p.1 ms else (p.1, false)

/-- `lambda_handler(event, context)`: run the loop over all records; if no
exception escaped, return `{"statusCode": 200, "body": "All messages processed"}`
(modelled as `Except.ok (200, ...)`); an uncaught exception is `Except.error ()`. -/
def lambda_handler (msgs : List MsgInput) : BatchState × Except Unit (Nat × String) :=
  let p := runBatch initState msgs
  (p.1, if p.2 then .ok (200, "All messages processed") else .error ())

/-- Connection/cursor lifecycle events of one iteration. -/
inductive HEvent where
  | openConn
  | openCursor
  | closeCursor
  | closeConn
deriving Repr, DecidableEq

/-- The handle events of one loop iteration, per source path.
`json.loads` raises before anything is acquired. If `get_connection()`
raises, nothing was acquired this iteration. If `conn.cursor()` raises,
only `conn` was acquired and the `finally` clause closes it
(`if 'conn' in locals(): conn.close()`). On every other path both handles
are acquired and the `finally` clause closes both — it runs on normal
completion, on `continue`, and after the `except` handler alike. -/
def msgHandleEvents (m : MsgInput) : List HEvent :=
  match m.parsed with
  | .parseError => []
  | .obj _ _ =>
    if m.connectOk = false then []
    else if m.cursorOk = false then [.openConn, .closeConn]
    else [.openConn, .openCursor, .closeCursor, .closeConn]

/-- A message whose body is `{"email": "a@x.com"}` (no `type` key), whose user
lookup finds `u1`, and whose collaborators all succeed. -/
def goodMsg (u1 : Nat) (uuid : String) (rand : List Nat) (t1 t2 : Nat) : MsgInput :=
  { parsed := .obj (some "a@x.com") none, connectOk := true, cursorOk := true,
    lookup := .found u1, insertOk := true, commitOk := true, sendOk := true,
    uuid := uuid, rand := rand, t1 := t1, t2 := t2 }

/-- Concrete instance of `goodMsg`. -/
def mGood : MsgInput := goodMsg 1 "id-1" [1, 2, 3, 4, 5, 6] 0 0

/-- A message whose body is not valid JSON. -/
def mMal : MsgInput :=
  { parsed := .parseError, connectOk := true, cursorOk := true,
    lookup := .notFound, insertOk := true, commitOk := true, sendOk := true,
    uuid := "id-2", rand := [], t1 := 0, t2 := 0 }

/-- A message whose email `ghost@x.com` matches no user. -/
def mGhost : MsgInput :=
  { parsed := .obj (some "ghost@x.com") none, connectOk := true, cursorOk := true,
    lookup := .notFound, insertOk := true, commitOk := true, sendOk := true,
    uuid := "id-3", rand := [], t1 := 0, t2 := 0 }

/-- A message for which the `otp_codes` INSERT fails. -/
def mPersistFail : MsgInput :=
  { parsed := .obj (some "b@x.com") none, connectOk := true, cursorOk := true,
    lookup := .found 2, insertOk := false, commitOk := true, sendOk := true,
    uuid := "id-4", rand := [], t1 := 0, t2 := 0 }

/-- A message persisted and committed whose SES send then fails. -/
def mSendFail : MsgInput :=
  { parsed := .obj (some "c@x.com") none, connectOk := true, cursorOk := true,
    lookup := .found 3, insertOk := true, commitOk := true, sendOk := false,
    uuid := "id-5", rand := [9, 9, 9, 9, 9, 9], t1 := 0, t2 := 0 }

/-- A message whose body is the valid JSON object `{}` (no `"email"` key);
the lookup with the null email returns no row. -/
def mNoEmail : MsgInput :=
  { parsed := .obj none none, connectOk := true, cursorOk := true,
    lookup := .notFound, insertOk := true, commitOk := true, sendOk := true,
    uuid := "id-6", rand := [], t1 := 0, t2 := 0 }

/-- Message whose processing reaches the INSERT and whose persistence
(INSERT or commit) fails. -/
def persistFailure (m : MsgInput) : Prop :=
  (∃ e t, m.parsed = .obj e t) ∧ m.connectOk = true ∧ m.cursorOk = true
    ∧ (∃ u, m.lookup = .found u) ∧ (m.insertOk = false ∨ m.commitOk = false)

/-- Message that parses and reaches a lookup returning no row. -/
def unknownEmail (m : MsgInput) : Prop :=
  (∃ e t, m.parsed = .obj e t) ∧ m.connectOk = true ∧ m.cursorOk = true
    ∧ m.lookup = LookupResult.notFound

/-- Message whose OTP row is inserted and committed but whose SES send fails. -/
def sendFailure (m : MsgInput) : Prop :=
  (∃ e t, m.parsed = .obj e t) ∧ m.connectOk = true ∧ m.cursorOk = true
    ∧ (∃ u, m.lookup = .found u) ∧ m.insertOk = true ∧ m.commitOk = true
    ∧ m.sendOk = false

/-- Message whose body is a valid JSON object with no `"email"` key and whose
lookup (executed with the null email) returns no row. -/
def noEmailKey (m : MsgInput) : Prop :=
  (∃ t, m.parsed = .obj none t) ∧ m.connectOk = true ∧ m.cursorOk = true
    ∧ m.lookup = LookupResult.notFound

/-- The user id returned by the lookup (0 when no row was found). -/
def msgUserId (m : MsgInput) : Nat :=
  match m.lookup with
  | .found u => u
  | _ => 0

/-- The OtpRecord built for a message whose lookup found a user. -/
def msgRecord (m : MsgInput) : OtpRecord :=
  create_otp_record m.uuid m.rand m.t1 m.t2 (msgUserId m) (msgOtpType m)

/-! ## Helper lemmas -/

theorem processMessage_continues (s : BatchState) (m : MsgInput)
    (h : m.parsed ≠ ParsedBody.parseError) :
    (processMessage s m).2 = true
      ∧ (processMessage s m).1.outcomes.length = s.outcomes.length + 1 := by
  rcases hp : m.parsed with _ | ⟨e, t⟩
  · exact absurd hp h
  · cases hcon : m.connectOk <;> cases hcur : m.cursorOk <;>
      rcases hl : m.lookup with _ | _ | u <;>
      cases hins : m.insertOk <;> cases hcom : m.commitOk <;> cases hsend : m.sendOk <;>
      simp [processMessage, hp, hcon, hcur, hl, hins, hcom, hsend]

theorem runBatch_complete (ms : List MsgInput) :
    ∀ s : BatchState, (∀ m ∈ ms, m.parsed ≠ ParsedBody.parseError) →
      (runBatch s ms).2 = true
        ∧ (runBatch s ms).1.outcomes.length = s.outcomes.length + ms.length := by
  induction ms with
  | nil => intro s _; simp [runBatch]
  | cons m ms ih =>
    intro s h
    have hm := processMessage_continues s m (h m (by simp))
    have hrest := ih (processMessage s m).1 (fun m' hm' => h m' (by simp [hm']))
    have hstep : runBatch s (m :: ms) = runBatch (processMessage s m).1 ms := by
      simp [runBatch, hm.1]
    rw [hstep]
    refine ⟨hrest.1, ?_⟩
    rw [hrest.2, hm.2]
    simp [List.length_cons]
    omega

theorem mem_store_processMessage (s : BatchState) (m : MsgInput) (r : OtpRecord)
    (h : r ∈ s.store) : r ∈ (processMessage s m).1.store := by
  rcases hp : m.parsed with _ | ⟨e, t⟩ <;>
    cases hcon : m.connectOk <;> cases hcur : m.cursorOk <;>
    rcases hl : m.lookup with _ | _ | u <;>
    cases hins : m.insertOk <;> cases hcom : m.commitOk <;> cases hsend : m.sendOk <;>
    simp [processMessage, hp, hcon, hcur, hl, hins, hcom, hsend, h]

theorem mem_store_runBatch (ms : List MsgInput) :
    ∀ (s : BatchState) (r : OtpRecord), r ∈ s.store → r ∈ (runBatch s ms).1.store := by
  induction ms with
  | nil => intro s r h; simpa [runBatch] using h
  | cons m ms ih =>
    intro s r h
    have hm := mem_store_processMessage s m r h
    cases hc : (processMessage s m).2
    · simpa [runBatch, hc] using hm
    · simpa [runBatch, hc] using ih (processMessage s m).1 r hm

theorem getD_mem_or {α : Type} (l : List α) (n : Nat) (d : α) :
    l.getD n d ∈ l ∨ l.getD n d = d := by
  induction l generalizing n with
  | nil => right; rfl
  | cons a l ih =>
    cases n with
    | zero => left; simp
    | succ n =>
      rcases ih n with h | h
      · left; simpa using Or.inr h
      · right; simpa using h

theorem generate_otp_length (rand : List Nat) (L : Nat) :
    (generate_otp rand L).length = L := by
  have h : (generate_otp rand L).length
      = ((List.range L).map (fun i => stringDigits.toList.getD ((rand.getD i 0) % 10) '0')).length :=
    rfl
  rw [h, List.length_map, List.length_range]

theorem generate_otp_digits (rand : List Nat) (L : Nat) :
    ∀ c ∈ (generate_otp rand L).toList, c ∈ stringDigits.toList := by
  intro c hc
  have hc' : c ∈ (List.range L).map (fun i => stringDigits.toList.getD ((rand.getD i 0) % 10) '0') :=
    hc
  rw [List.mem_map] at hc'
  obtain ⟨i, _, rfl⟩ := hc'
  rcases getD_mem_or stringDigits.toList ((rand.getD i 0) % 10) '0' with h | h
  · exact h
  · rw [h]; decide

theorem processMessage_persist_fail (s : BatchState) (m : MsgInput)
    (hf : persistFailure m) :
    (processMessage s m).1.errors = s.errors ++ [msgEmail m]
      ∧ (processMessage s m).1.notifications = s.notifications
      ∧ (processMessage s m).1.store = s.store
      ∧ (processMessage s m).2 = true := by
  obtain ⟨⟨e, t, hp⟩, hcon, hcur, ⟨u, hl⟩, hic⟩ := hf
  rcases hic with hins | hcom
  · simp [processMessage, hp, hcon, hcur, hl, hins, msgEmail]
  · cases hins : m.insertOk <;>
      simp [processMessage, hp, hcon, hcur, hl, hins, hcom, msgEmail]

theorem processMessage_unknown_email (s : BatchState) (m : MsgInput)
    (hf : unknownEmail m) :
    (processMessage s m).1.store = s.store
      ∧ (processMessage s m).1.notifications = s.notifications
      ∧ (processMessage s m).1.errors = s.errors
      ∧ (processMessage s m).1.skips = s.skips ++ [msgEmail m]
      ∧ (processMessage s m).1.queries = s.queries ++ [msgEmail m]
      ∧ (processMessage s m).2 = true := by
  obtain ⟨⟨e, t, hp⟩, hcon, hcur, hl⟩ := hf
  simp [processMessage, hp, hcon, hcur, hl, msgEmail]

/-! ## Claims -/

/-- C8: for every length L ≥ 1, `generate_otp` returns a string of
exactly L characters, each drawn from `string.digits`. -/
theorem C8_generate_otp_shape (rand : List Nat) (L : Nat) (hL : 1 ≤ L) :
    (generate_otp rand L).length = L ∧
      ∀ c ∈ (generate_otp rand L).toList, c ∈ stringDigits.toList :=
  ⟨generate_otp_length rand L, generate_otp_digits rand L⟩

/-- C8 witness: concrete instance at L = 6. -/
theorem C8_generate_otp_shape_witness :
    (generate_otp [3, 1, 4, 1, 5, 9] 6).length = 6 ∧
      ∀ c ∈ (generate_otp [3, 1, 4, 1, 5, 9] 6).toList, c ∈ stringDigits.toList :=
  C8_generate_otp_shape [3, 1, 4, 1, 5, 9] 6 (by decide)

/-- C3 counterexample: with monotone clock reads t1 = 0 (for `expires_at`)
and t2 = 1 (for `created_at`), `expires_at - created_at` is 599 s, not the
claimed exact 600 s: the source computes `expires_at` from a clock read
taken BEFORE the one for `created_at`. -/
theorem C3_counterexample :
    ¬ ((create_otp_record "w" [0, 0, 0, 0, 0, 0] 0 1 7).expires_at
        - (create_otp_record "w" [0, 0, 0, 0, 0, 0] 0 1 7).created_at = TEN_MINUTES) := by
  decide

/-- C3 (amended): for monotone clock reads t1 ≤ t2,
`expires_at - created_at = 10 minutes - (t2 - t1)`: it equals exactly
10 minutes when the two reads coincide, and `expires_at > created_at`
whenever the clock advanced by less than 10 minutes between the reads. -/
theorem C3_expiry_window (uuid : String) (rand : List Nat) (t1 t2 u : Nat)
    (hmono : t1 ≤ t2) :
    (create_otp_record uuid rand t1 t2 u).expires_at
        - (create_otp_record uuid rand t1 t2 u).created_at = TEN_MINUTES - (t2 - t1)
    ∧ (t2 = t1 →
        (create_otp_record uuid rand t1 t2 u).expires_at
          - (create_otp_record uuid rand t1 t2 u).created_at = TEN_MINUTES)
    ∧ (t2 - t1 < TEN_MINUTES →
        (create_otp_record uuid rand t1 t2 u).created_at
          < (create_otp_record uuid rand t1 t2 u).expires_at) := by
  simp only [create_otp_record, TEN_MINUTES]
  omega

/-- C3 witness: concrete instance with both clock reads at 5. -/
theorem C3_expiry_window_witness :
    (create_otp_record "w" [] 5 5 1).expires_at
        - (create_otp_record "w" [] 5 5 1).created_at = TEN_MINUTES - (5 - 5)
    ∧ (5 = 5 →
        (create_otp_record "w" [] 5 5 1).expires_at
          - (create_otp_record "w" [] 5 5 1).created_at = TEN_MINUTES)
    ∧ (5 - 5 < TEN_MINUTES →
        (create_otp_record "w" [] 5 5 1).created_at
          < (create_otp_record "w" [] 5 5 1).expires_at) :=
  C3_expiry_window "w" [] 5 5 1 (by decide)

/-- C1 counterexample: the batch holding one message with a malformed JSON
body makes `lambda_handler` raise (the `json.loads` call sits outside the
`try` block), so the handler does not return the claimed statusCode-200
result for every batch. -/
theorem C1_counterexample :
    (lambda_handler [mMal]).2 ≠ Except.ok (200, "All messages processed") := by
  intro h
  exact Except.noConfusion
    ((rfl : (lambda_handler [mMal]).2 = Except.error ()).symm.trans h)

/-- C1 (amended): provided every message's body parses as JSON, every
per-message error is caught at the per-message boundary, no exception
escapes the batch, every message is attempted, and the handler returns the
overall-success result (statusCode 200); a message whose raw payload is not
valid JSON instead raises out of the handler and aborts the batch. -/
theorem C1_batch_success (msgs : List MsgInput)
    (h : ∀ m ∈ msgs, m.parsed ≠ ParsedBody.parseError) :
    (lambda_handler msgs).2 = Except.ok (200, "All messages processed")
      ∧ (lambda_handler msgs).1.outcomes.length = msgs.length := by
  have hr := runBatch_complete msgs initState h
  constructor
  · show (if (runBatch initState msgs).2 then
        (Except.ok ((200 : Nat), "All messages processed") : Except Unit (Nat × String))
      else Except.error ()) = _
    rw [hr.1]
    simp
  · show (runBatch initState msgs).1.outcomes.length = msgs.length
    rw [hr.2]
    simp [initState]

/-- C1 witness: a two-message batch (a successful message and an
unknown-email message), both of which parse. -/
theorem C1_batch_success_witness :
    (lambda_handler [mGood, mGhost]).2 = Except.ok (200, "All messages processed")
      ∧ (lambda_handler [mGood, mGhost]).1.outcomes.length = [mGood, mGhost].length :=
  C1_batch_success [mGood, mGhost] (by decide)

/-- C2 counterexample: on the batch whose first message resolves to a known
user and whose second message has a malformed body, the handler does not
return success: the second message's `json.loads` raises outside the `try`
and aborts the batch. -/
theorem C2_counterexample :
    (lambda_handler [mGood, mMal]).2 ≠ Except.ok (200, "All messages processed") := by
  intro h
  exact Except.noConfusion
    ((rfl : (lambda_handler [mGood, mMal]).2 = Except.error ()).symm.trans h)

/-- C2 (amended): on that two-message batch exactly one OTP record is
inserted (for the first message, user id 1), but the malformed second
message is not recorded as a per-message failure and the batch raises an
uncaught exception instead of returning success. -/
theorem C2_malformed_aborts :
    (lambda_handler [mGood, mMal]).1.store.length = 1
      ∧ (lambda_handler [mGood, mMal]).1.store.map (fun r => r.user_id) = [1]
      ∧ (lambda_handler [mGood, mMal]).2 = Except.error ()
      ∧ (lambda_handler [mGood, mMal]).1.errors = [] := by
  refine ⟨rfl, rfl, rfl, rfl⟩

/-- C4 counterexample: in a batch where persistence fails for message 1, an
exception can still escape `lambda_handler` — here the second message's body
is malformed JSON, whose parse failure is uncaught — so the claim's
"no exception escapes, every other message is attempted" does not hold for
every such batch. -/
theorem C4_counterexample :
    (lambda_handler [mPersistFail, mMal]).2 ≠ Except.ok (200, "All messages processed") := by
  intro h
  exact Except.noConfusion
    ((rfl : (lambda_handler [mPersistFail, mMal]).2 = Except.error ()).symm.trans h)

/-- C4 (amended): provided every message's body parses as JSON, if the
INSERT or commit fails for message k, the handler records a per-message
failure for k, sends no notification for k, persists nothing for k, still
attempts every message and returns success with no exception escaping. -/
theorem C4_persist_failure_isolated (msgs : List MsgInput)
    (hparse : ∀ m ∈ msgs, m.parsed ≠ ParsedBody.parseError)
    (k : Nat) (hk : k < msgs.length) (hfail : persistFailure (msgs.get ⟨k, hk⟩)) :
    (lambda_handler msgs).2 = Except.ok (200, "All messages processed")
      ∧ (lambda_handler msgs).1.outcomes.length = msgs.length
      ∧ ∀ s : BatchState,
          (processMessage s (msgs.get ⟨k, hk⟩)).1.errors = s.errors ++ [msgEmail (msgs.get ⟨k, hk⟩)]
            ∧ (processMessage s (msgs.get ⟨k, hk⟩)).1.notifications = s.notifications
            ∧ (processMessage s (msgs.get ⟨k, hk⟩)).1.store = s.store
            ∧ (processMessage s (msgs.get ⟨k, hk⟩)).2 = true := by
  refine ⟨?_, ?_, fun s => processMessage_persist_fail s (msgs.get ⟨k, hk⟩) hfail⟩
  · show (if (runBatch initState msgs).2 then
        (Except.ok ((200 : Nat), "All messages processed") : Except Unit (Nat × String))
      else Except.error ()) = _
    rw [(runBatch_complete msgs initState hparse).1]
    simp
  · show (runBatch initState msgs).1.outcomes.length = msgs.length
    rw [(runBatch_complete msgs initState hparse).2]
    simp [initState]

/-- C4 witness: batch of an insert-failing message followed by an
unknown-email message; the per-message clauses instantiated at the empty
state. -/
theorem C4_persist_failure_isolated_witness :
    (lambda_handler [mPersistFail, mGhost]).2 = Except.ok (200, "All messages processed")
      ∧ (lambda_handler [mPersistFail, mGhost]).1.outcomes.length = [mPersistFail, mGhost].length
      ∧ (processMessage initState mPersistFail).1.errors = initState.errors ++ [msgEmail mPersistFail]
      ∧ (processMessage initState mPersistFail).1.notifications = initState.notifications
      ∧ (processMessage initState mPersistFail).1.store = initState.store
      ∧ (processMessage initState mPersistFail).2 = true := by
  have h := C4_persist_failure_isolated [mPersistFail, mGhost] (by decide) 0 (by decide)
    ⟨⟨some "b@x.com", none, rfl⟩, rfl, rfl, ⟨2, rfl⟩, Or.inl rfl⟩
  exact ⟨h.1, h.2.1, (h.2.2 initState).1, (h.2.2 initState).2.1,
    (h.2.2 initState).2.2.1, (h.2.2 initState).2.2.2⟩

/-- C5: for the single-message batch `[{"email":"a@x.com"}]` (no `type`
key), user resolved to id u1, all collaborators succeeding: exactly one
OtpRecord is inserted, with `user_id = u1`, `type = "email_verification"`
(the default) and a 6-character decimal-digit code, and exactly one
notification is sent to `a@x.com` whose body contains that code. -/
theorem C5_end_to_end (u1 : Nat) (uuid : String) (rand : List Nat) (t1 t2 : Nat) :
    (lambda_handler [goodMsg u1 uuid rand t1 t2]).2 = Except.ok (200, "All messages processed")
      ∧ (lambda_handler [goodMsg u1 uuid rand t1 t2]).1.store
          = [create_otp_record uuid rand t1 t2 u1 "email_verification"]
      ∧ (create_otp_record uuid rand t1 t2 u1 "email_verification").user_id = u1
      ∧ (create_otp_record uuid rand t1 t2 u1 "email_verification").type = "email_verification"
      ∧ (create_otp_record uuid rand t1 t2 u1 "email_verification").code.length = 6
      ∧ (∀ c ∈ (create_otp_record uuid rand t1 t2 u1 "email_verification").code.toList,
          c ∈ stringDigits.toList)
      ∧ (lambda_handler [goodMsg u1 uuid rand t1 t2]).1.notifications
          = [(some "a@x.com",
              email_body_text (create_otp_record uuid rand t1 t2 u1 "email_verification").code)]
      ∧ ∃ pre post,
          email_body_text (create_otp_record uuid rand t1 t2 u1 "email_verification").code
            = pre ++ (create_otp_record uuid rand t1 t2 u1 "email_verification").code ++ post := by
  refine ⟨rfl, rfl, rfl, rfl, generate_otp_length rand 6, generate_otp_digits rand 6,
    rfl, "Your OTP is ", ". It will expire in 10 minutes.", rfl⟩

/-- C6 counterexample: in a batch whose first message has an unknown email,
processing does not reach the end of the batch without exception for every
such batch — here the second message's malformed body raises uncaught. -/
theorem C6_counterexample :
    (lambda_handler [mGhost, mMal]).2 ≠ Except.ok (200, "All messages processed") := by
  intro h
  exact Except.noConfusion
    ((rfl : (lambda_handler [mGhost, mMal]).2 = Except.error ()).symm.trans h)

/-- C6 (amended): provided every message's body parses as JSON, a message
whose email matches no user causes zero inserts, zero notifications and no
error entry for that message (it is logged as a skip), no exception, and
the batch still attempts all N messages and returns success. -/
theorem C6_unknown_email_skipped (msgs : List MsgInput)
    (hparse : ∀ m ∈ msgs, m.parsed ≠ ParsedBody.parseError)
    (k : Nat) (hk : k < msgs.length) (hskip : unknownEmail (msgs.get ⟨k, hk⟩)) :
    (lambda_handler msgs).2 = Except.ok (200, "All messages processed")
      ∧ (lambda_handler msgs).1.outcomes.length = msgs.length
      ∧ ∀ s : BatchState,
          (processMessage s (msgs.get ⟨k, hk⟩)).1.store = s.store
            ∧ (processMessage s (msgs.get ⟨k, hk⟩)).1.notifications = s.notifications
            ∧ (processMessage s (msgs.get ⟨k, hk⟩)).1.errors = s.errors
            ∧ (processMessage s (msgs.get ⟨k, hk⟩)).1.skips = s.skips ++ [msgEmail (msgs.get ⟨k, hk⟩)]
            ∧ (processMessage s (msgs.get ⟨k, hk⟩)).2 = true := by
  refine ⟨?_, ?_, fun s => ?_⟩
  · show (if (runBatch initState msgs).2 then
        (Except.ok ((200 : Nat), "All messages processed") : Except Unit (Nat × String))
      else Except.error ()) = _
    rw [(runBatch_complete msgs initState hparse).1]
    simp
  · show (runBatch initState msgs).1.outcomes.length = msgs.length
    rw [(runBatch_complete msgs initState hparse).2]
    simp [initState]
  · have h := processMessage_unknown_email s (msgs.get ⟨k, hk⟩) hskip
    exact ⟨h.1, h.2.1, h.2.2.1, h.2.2.2.1, h.2.2.2.2.2⟩

/-- C6 witness: batch of an unknown-email message followed by a successful
one; the per-message clauses instantiated at the empty state. -/
theorem C6_unknown_email_skipped_witness :
    (lambda_handler [mGhost, mGood]).2 = Except.ok (200, "All messages processed")
      ∧ (lambda_handler [mGhost, mGood]).1.outcomes.length = [mGhost, mGood].length
      ∧ (processMessage initState mGhost).1.store = initState.store
      ∧ (processMessage initState mGhost).1.notifications = initState.notifications
      ∧ (processMessage initState mGhost).1.errors = initState.errors
      ∧ (processMessage initState mGhost).1.skips = initState.skips ++ [msgEmail mGhost]
      ∧ (processMessage initState mGhost).2 = true := by
  have h := C6_unknown_email_skipped [mGhost, mGood] (by decide) 0 (by decide)
    ⟨⟨some "ghost@x.com", none, rfl⟩, rfl, rfl, rfl⟩
  exact ⟨h.1, h.2.1, (h.2.2 initState).1, (h.2.2 initState).2.1,
    (h.2.2 initState).2.2.1, (h.2.2 initState).2.2.2.1, (h.2.2 initState).2.2.2.2⟩

/-- C7: when a message's OTP row was inserted and committed but the SES
send then fails, the committed row is appended to the store and stays there
(no compensating delete — it is still present after the rest of the batch),
a per-message failure is recorded, no notification is sent, and processing
continues to the next message. -/
theorem C7_send_failure_keeps_record (s : BatchState) (m : MsgInput)
    (rest : List MsgInput) (hf : sendFailure m) :
    (processMessage s m).1.store = s.store ++ [msgRecord m]
      ∧ (processMessage s m).1.errors = s.errors ++ [msgEmail m]
      ∧ (processMessage s m).1.notifications = s.notifications
      ∧ (processMessage s m).2 = true
      ∧ msgRecord m ∈ (runBatch (processMessage s m).1 rest).1.store := by
  obtain ⟨⟨e, t, hp⟩, hcon, hcur, ⟨u, hl⟩, hins, hcom, hsend⟩ := hf
  have h1 : (processMessage s m).1.store = s.store ++ [msgRecord m]
      ∧ (processMessage s m).1.errors = s.errors ++ [msgEmail m]
      ∧ (processMessage s m).1.notifications = s.notifications
      ∧ (processMessage s m).2 = true := by
    simp [processMessage, hp, hcon, hcur, hl, hins, hcom, hsend,
      msgRecord, msgUserId, msgOtpType, msgEmail]
  refine ⟨h1.1, h1.2.1, h1.2.2.1, h1.2.2.2, ?_⟩
  apply mem_store_runBatch
  rw [h1.1]
  simp

/-- C7 witness: a send-failing message followed by one further message. -/
theorem C7_send_failure_keeps_record_witness :
    (processMessage initState mSendFail).1.store = initState.store ++ [msgRecord mSendFail]
      ∧ (processMessage initState mSendFail).1.errors = initState.errors ++ [msgEmail mSendFail]
      ∧ (processMessage initState mSendFail).1.notifications = initState.notifications
      ∧ (processMessage initState mSendFail).2 = true
      ∧ msgRecord mSendFail ∈ (runBatch (processMessage initState mSendFail).1 [mGood]).1.store :=
  C7_send_failure_keeps_record initState mSendFail [mGood]
    ⟨⟨some "c@x.com", none, rfl⟩, rfl, rfl, ⟨3, rfl⟩, rfl, rfl, rfl⟩

/-- C9: in every loop iteration, each connection or cursor acquired during
that iteration is closed by the iteration's `finally` clause before the
next message starts: on success, on the user-not-found `continue`, and
after a caught failure alike (a parse failure acquires nothing). -/
theorem C9_handles_closed (m : MsgInput) :
    (msgHandleEvents m).count HEvent.openConn = (msgHandleEvents m).count HEvent.closeConn
      ∧ (msgHandleEvents m).count HEvent.openCursor
          = (msgHandleEvents m).count HEvent.closeCursor := by
  rcases hp : m.parsed with _ | ⟨e, t⟩ <;>
    cases hcon : m.connectOk <;> cases hcur : m.cursorOk <;>
    simp [msgHandleEvents, hp, hcon, hcur]

/-- C10: a message whose body is valid JSON without an `"email"` key is not
a parse failure: the lookup is executed with the null email, and when it
returns no row the message is silently skipped — no insert, no
notification, no error entry, and the loop continues. -/
theorem C10_missing_email_skipped (s : BatchState) (m : MsgInput) (hf : noEmailKey m) :
    (processMessage s m).2 = true
      ∧ (processMessage s m).1.queries = s.queries ++ [none]
      ∧ (processMessage s m).1.skips = s.skips ++ [none]
      ∧ (processMessage s m).1.store = s.store
      ∧ (processMessage s m).1.notifications = s.notifications
      ∧ (processMessage s m).1.errors = s.errors
      ∧ (processMessage s m).1.outcomes = s.outcomes ++ [MsgOutcome.skipped] := by
  obtain ⟨⟨t, hp⟩, hcon, hcur, hl⟩ := hf
  simp [processMessage, hp, hcon, hcur, hl]

/-- C10 witness: the message whose body is the JSON object with no keys. -/
theorem C10_missing_email_skipped_witness :
    (processMessage initState mNoEmail).2 = true
      ∧ (processMessage initState mNoEmail).1.queries = initState.queries ++ [none]
      ∧ (processMessage initState mNoEmail).1.skips = initState.skips ++ [none]
      ∧ (processMessage initState mNoEmail).1.store = initState.store
      ∧ (processMessage initState mNoEmail).1.notifications = initState.notifications
      ∧ (processMessage initState mNoEmail).1.errors = initState.errors
      ∧ (processMessage initState mNoEmail).1.outcomes = initState.outcomes ++ [MsgOutcome.skipped] :=
  C10_missing_email_skipped initState mNoEmail ⟨⟨none, rfl⟩, rfl, rfl, rfl⟩

end SqsEmailSender
